import Mathlib

/-!
# posts-router.js: the seven route handlers of the posts API

A shallow embedding of `src/posts/posts-router.js`.  Each handler of the router
becomes a function from the store, the request and the store's state to a `Run`:
the store calls it made (in order), what it wrote with `console.log`, the response
it sent with `res.status(..).json(..)` (if any), a rejection nobody handled (if
any) and the store's state afterwards.

The data-access module `db` (`../data/db.js`) is a collaborator of the router: the
handlers are parametric in it (`Store`).  Every store call returns a promise, which
is modelled by the way it settles (`Settled`).
-/

namespace PostsRouter

/-! ## JavaScript values -/

/-- JSON-like JavaScript values, as they occur in request bodies, in what the store
resolves to and in response payloads.  Numbers are integer-valued. -/
inductive JSVal where
  | undefined : JSVal
  | null : JSVal
  | bool (b : Bool) : JSVal
  | num (n : Int) : JSVal
  | str (s : String) : JSVal
  | arr (items : List JSVal) : JSVal
  | obj (fields : List (String × JSVal)) : JSVal

instance : Inhabited JSVal := ⟨JSVal.undefined⟩

/-- The fields of a JavaScript object, as key/value pairs; the first binding of a key
is the one that is read. -/
abbrev Obj := List (String × JSVal)

/-- JavaScript's `ToBoolean`: `undefined`, `null`, `false`, `0` and `""` are falsy,
every other value (every object and every array, the empty one too) is truthy. -/
def JSVal.truthy : JSVal → Bool
  | JSVal.undefined => false
  | JSVal.null => false
  | JSVal.bool b => b
  | JSVal.num n => n != 0
  | JSVal.str s => s != ""
  | JSVal.arr _ => true
  | JSVal.obj _ => true

/-- Property read `o.key` on an object: the value bound to `key`, `undefined` when the
object has no such property. -/
def Obj.get (o : Obj) (key : String) : JSVal :=
  match o.lookup key with
  | some v => v
  | none => JSVal.undefined

/-! ## Requests and responses -/

/-- The route parameters `req.params`; every parameterised route of the router has
the single parameter `:id`, which Express delivers as a string. -/
structure Params where
  id : String

/-- The part of an Express request the handlers read: `req.params`, `req.query` and
`req.body`, the parsed JSON body (an object; the empty object for a request without
one). -/
structure Request where
  params : Params
  query : JSVal
  body : Obj

/-- What `res.status(status).json(body)` sends. -/
structure Response where
  status : Nat
  body : JSVal

/-! ## The store -/

/-- How the promise returned by a store call settles. -/
inductive Settled where
  | resolved (value : JSVal) : Settled
  | rejected (error : JSVal) : Settled

/-- A call of one of the seven functions of `db`, with its arguments. -/
inductive Call where
  | find (query : JSVal) : Call
  | findById (id : String) : Call
  | findPostComments (postId : String) : Call
  | insert (post : JSVal) : Call
  | insertComment (comment : JSVal) : Call
  | update (id : String) (changes : JSVal) : Call
  | remove (id : String) : Call

/-- The data-access module `db` over a state `σ`: each function takes its arguments
and the current state and gives the way its promise settles and the next state. -/
structure Store (σ : Type) where
  find : JSVal → σ → Settled × σ
  findById : String → σ → Settled × σ
  findPostComments : String → σ → Settled × σ
  insert : JSVal → σ → Settled × σ
  insertComment : JSVal → σ → Settled × σ
  update : String → JSVal → σ → Settled × σ
  remove : String → σ → Settled × σ

/-- What one run of a handler did. -/
structure Run (σ : Type) where
  /-- The store calls made, in order. -/
  calls : List Call
  /-- The values written with `console.log`. -/
  logged : List JSVal
  /-- The response sent, `none` when the handler never sends one. -/
  response : Option Response
  /-- The reason of a rejected promise no `.catch` handles. -/
  unhandled : Option JSVal
  /-- The state of the store afterwards. -/
  state : σ

/-! ## Fixed payloads -/

/-- The payload `{ message: "The post with the specified ID does not exist." }`. -/
def notFoundPayload : JSVal :=
  JSVal.obj [("message", JSVal.str "The post with the specified ID does not exist.")]

/-- The payload `{ errorMessage: "Please provide title and contents for the post." }`. -/
def postValidationPayload : JSVal :=
  JSVal.obj [("errorMessage", JSVal.str "Please provide title and contents for the post.")]

/-- The payload `{ errorMessage: "Please provide text for the comment." }`. -/
def commentValidationPayload : JSVal :=
  JSVal.obj [("errorMessage", JSVal.str "Please provide text for the comment.")]

/-- The payload `{ error: msg }` of a 500 response. -/
def errorPayload (msg : String) : JSVal :=
  JSVal.obj [("error", JSVal.str msg)]

/-! ## The handlers -/

variable {σ : Type}

/-- Handler of `router.get('/')` (lines 11-22): `db.find(req.query)`, then 200 with what it
resolved to; a rejection is logged and answered with 500. -/
def getRoot (db : Store σ) (req : Request) (s : σ) : Run σ :=
  match db.find req.query s with
  | (Settled.resolved posts, s1) =>
      { calls := [Call.find req.query], logged := [],
        response := some ⟨200, posts⟩, unhandled := none, state := s1 }
  | (Settled.rejected error, s1) =>
      { calls := [Call.find req.query], logged := [error],
        response := some ⟨500, errorPayload "The posts' information couldn't be retrieved..."⟩,
        unhandled := none, state := s1 }

/-- Handler of `router.get('/:id')` (lines 35-46): `db.findById(req.params.id)`, then 200 with
the post when it is truthy and 404 otherwise; a rejection is logged and answered with 500. -/
def getId (db : Store σ) (req : Request) (s : σ) : Run σ :=
  match db.findById req.params.id s with
  | (Settled.resolved post, s1) =>
      { calls := [Call.findById req.params.id], logged := [],
        response := if post.truthy then some ⟨200, post⟩ else some ⟨404, notFoundPayload⟩,
        unhandled := none, state := s1 }
  | (Settled.rejected error, s1) =>
      { calls := [Call.findById req.params.id], logged := [error],
        response := some ⟨500, errorPayload "The post information could not be retrieved."⟩,
        unhandled := none, state := s1 }

/-- Handler of `router.get('/:id/comments')` (lines 59-67): `db.findPostComments(req.params.id)`,
then 404 when the result is falsy and 200 with it otherwise; a rejection is answered with 500. -/
def getIdComments (db : Store σ) (req : Request) (s : σ) : Run σ :=
  match db.findPostComments req.params.id s with
  | (Settled.resolved post, s1) =>
      { calls := [Call.findPostComments req.params.id], logged := [],
        response := if !post.truthy then some ⟨404, notFoundPayload⟩ else some ⟨200, post⟩,
        unhandled := none, state := s1 }
  | (Settled.rejected _, s1) =>
      { calls := [Call.findPostComments req.params.id], logged := [],
        response := some ⟨500, errorPayload "The comments information could not be retrieved."⟩,
        unhandled := none, state := s1 }

/-- Handler of `router.post('/')` (lines 83-101): 400 without a store call when `title` or
`contents` of the body is falsy; otherwise `db.insert(post)` with the body, then 201 with what
it resolved to; a rejection is answered with 500. -/
def postRoot (db : Store σ) (req : Request) (s : σ) : Run σ :=
  let post := req.body
  if !(post.get "title").truthy || !(post.get "contents").truthy then
    { calls := [], logged := [], response := some ⟨400, postValidationPayload⟩,
      unhandled := none, state := s }
  else
    match db.insert (JSVal.obj post) s with
    | (Settled.resolved post, s1) =>
        { calls := [Call.insert (JSVal.obj req.body)], logged := [],
          response := some ⟨201, post⟩, unhandled := none, state := s1 }
    | (Settled.rejected _, s1) =>
        { calls := [Call.insert (JSVal.obj req.body)], logged := [],
          response := some ⟨500, errorPayload "There was an error while saving the post to the database"⟩,
          unhandled := none, state := s1 }

/-- The object `{text: req.body.text, post_id: req.params.id}` built on line 121. -/
def newComment (req : Request) : Obj :=
  [("text", req.body.get "text"), ("post_id", JSVal.str req.params.id)]

/-- Handler of `router.post('/:id/comments')` (lines 120-147).  `db.findById(req.params.id)`;
a falsy post gives 404; a truthy post with a falsy `comment.text` or `comment.post_id` gives
400; otherwise `db.insertComment(comment)`, then 201 with what it resolved to.  The `.catch` of
line 142 is attached to the chain of `findById` only: the promise of `insertComment` is not
returned from the `.then` callback, so its rejection is handled by nobody and no response is
sent. -/
def postIdComments (db : Store σ) (req : Request) (s : σ) : Run σ :=
  let comment := newComment req
  match db.findById req.params.id s with
  | (Settled.resolved post, s1) =>
      if post.truthy then
        if (comment.get "text").truthy && (comment.get "post_id").truthy then
          match db.insertComment (JSVal.obj comment) s1 with
          | (Settled.resolved comment, s2) =>
              { calls := [Call.findById req.params.id, Call.insertComment (JSVal.obj (newComment req))],
                logged := [], response := some ⟨201, comment⟩, unhandled := none, state := s2 }
          | (Settled.rejected error, s2) =>
              { calls := [Call.findById req.params.id, Call.insertComment (JSVal.obj (newComment req))],
                logged := [], response := none, unhandled := some error, state := s2 }
        else
          { calls := [Call.findById req.params.id], logged := [],
            response := some ⟨400, commentValidationPayload⟩, unhandled := none, state := s1 }
      else
        { calls := [Call.findById req.params.id], logged := [],
          response := some ⟨404, notFoundPayload⟩, unhandled := none, state := s1 }
  | (Settled.rejected _, s1) =>
      { calls := [Call.findById req.params.id], logged := [],
        response := some ⟨500, errorPayload "There was an error while saving the comment to the database"⟩,
        unhandled := none, state := s1 }

/-- Handler of `router.put('/:id')` (lines 167-191): 400 without a store call when `title` or
`contents` of the body is falsy; otherwise `db.update(id, req.body)`, then 200 with the post
when it is truthy and 404 otherwise; a rejection is answered with 500. -/
def putId (db : Store σ) (req : Request) (s : σ) : Run σ :=
  let title := req.body.get "title"
  let contents := req.body.get "contents"
  let id := req.params.id
  if !title.truthy || !contents.truthy then
    { calls := [], logged := [], response := some ⟨400, postValidationPayload⟩,
      unhandled := none, state := s }
  else
    match db.update id (JSVal.obj req.body) s with
    | (Settled.resolved post, s1) =>
        { calls := [Call.update id (JSVal.obj req.body)], logged := [],
          response := if post.truthy then some ⟨200, post⟩ else some ⟨404, notFoundPayload⟩,
          unhandled := none, state := s1 }
    | (Settled.rejected _, s1) =>
        { calls := [Call.update id (JSVal.obj req.body)], logged := [],
          response := some ⟨500, errorPayload "The post information could not be modified."⟩,
          unhandled := none, state := s1 }

/-- Handler of `router.delete('/:id')` (lines 202-221): `db.remove(id)`, then 200 with the
message `Deleted post with id <id>` when the result is truthy and 404 otherwise; a rejection
is answered with 500. -/
def deleteId (db : Store σ) (req : Request) (s : σ) : Run σ :=
  let id := req.params.id
  match db.remove id s with
  | (Settled.resolved post, s1) =>
      { calls := [Call.remove id], logged := [],
        response :=
          if post.truthy then
            some ⟨200, JSVal.obj [("message", JSVal.str ("Deleted post with id " ++ id))]⟩
          else some ⟨404, notFoundPayload⟩,
        unhandled := none, state := s1 }
  | (Settled.rejected _, s1) =>
      { calls := [Call.remove id], logged := [],
        response := some ⟨500, errorPayload "The post could not be removed"⟩,
        unhandled := none, state := s1 }

/-! ## The store of the specification -/

/-- The state of the in-memory store: the posts, the comments and the next id to assign. -/
structure MemState where
  posts : List JSVal
  comments : List JSVal
  nextId : Nat

/-- The fields of a value handed to the store: those of an object, none for any other value. -/
def fieldsOf : JSVal → Obj
  | JSVal.obj fields => fields
  | _ => []

/-- Whether the record `r` carries the number `n` under `key`, where the path id `id` is the
decimal writing of `n`. -/
def refersTo (key : String) (id : String) (r : JSVal) : Bool :=
  match (fieldsOf r).get key with
  | JSVal.num (Int.ofNat n) => toString n == id
  | JSVal.str t => t == id
  | _ => false

/-- Whether `post` is a post object whose `id` is the one written in the path. -/
def hasId (id : String) (post : JSVal) : Bool :=
  match post with
  | JSVal.obj _ => refersTo "id" id post
  | _ => false

/-- Modelled from the spec: the PostStore collaborator (`data/db.js`, which the router requires
and which is not among the sources), as an in-memory store following the contract of the
specification.  `find(filter)` resolves to the array of posts (the filter is not interpreted),
`findById(id)` to the post or `undefined`, `findPostComments(postId)` to the comments of the
post or `undefined` when the post is missing, `insert(post)` to the created post (the fields
given plus a store-assigned `id`), `insertComment(comment)` to the created comment,
`update(id, fields)` to the updated post or `undefined`, `remove(id)` to the removed post or
`undefined`.  Posts are created by `insert`, changed by `update` and destroyed by `remove`.
No call of this store rejects. -/
def memStore : Store MemState where
  find := fun _ s => (Settled.resolved (JSVal.arr s.posts), s)
  findById := fun id s =>
    match s.posts.find? (hasId id) with
    | some post => (Settled.resolved post, s)
    | none => (Settled.resolved JSVal.undefined, s)
  findPostComments := fun postId s =>
    match s.posts.find? (hasId postId) with
    | some _ => (Settled.resolved (JSVal.arr (s.comments.filter (refersTo "post_id" postId))), s)
    | none => (Settled.resolved JSVal.undefined, s)
  insert := fun post s =>
    let created := JSVal.obj (("id", JSVal.num (Int.ofNat s.nextId)) :: fieldsOf post)
    (Settled.resolved created, { s with posts := s.posts ++ [created], nextId := s.nextId + 1 })
  insertComment := fun comment s =>
    let created := JSVal.obj (("id", JSVal.num (Int.ofNat s.nextId)) :: fieldsOf comment)
    (Settled.resolved created, { s with comments := s.comments ++ [created], nextId := s.nextId + 1 })
  update := fun id changes s =>
    match s.posts.find? (hasId id) with
    | some post =>
        let updated := JSVal.obj (("id", (fieldsOf post).get "id") :: fieldsOf changes ++ fieldsOf post)
        (Settled.resolved updated,
          { s with posts := s.posts.map (fun p => if hasId id p then updated else p) })
    | none => (Settled.resolved JSVal.undefined, s)
  remove := fun id s =>
    match s.posts.find? (hasId id) with
    | some post => (Settled.resolved post, { s with posts := s.posts.filter (fun p => !hasId id p) })
    | none => (Settled.resolved JSVal.undefined, s)

/-! ## Sample data -/

/-- A stored post with id 1. -/
def samplePost : JSVal :=
  JSVal.obj [("id", JSVal.num 1), ("title", JSVal.str "Hello"), ("contents", JSVal.str "First post")]

/-- A store state holding `samplePost` and no comment. -/
def sampleState : MemState := { posts := [samplePost], comments := [], nextId := 2 }

/-- A store state without posts. -/
def emptyState : MemState := { posts := [], comments := [], nextId := 1 }

/-- A request with path id `id` and body `body`. -/
def mkRequest (id : String) (body : Obj) : Request :=
  { params := { id := id }, query := JSVal.obj [], body := body }

/-- A store whose `insertComment` rejects; its other functions are those of `memStore`. -/
def commentFailingStore : Store MemState :=
  { memStore with
    insertComment := fun _ s => (Settled.rejected (JSVal.str "insertComment failed"), s) }

/-- A store whose `findById` behaves as the comment above `router.get('/:id')` documents it
(lines 25-26): it gives the post with that id, "or an empty array if no post with that `id` is
found"; its other functions are those of `memStore`. -/
def documentedStore : Store MemState :=
  { memStore with
    findById := fun id s =>
      match s.posts.find? (hasId id) with
      | some post => (Settled.resolved post, s)
      | none => (Settled.resolved (JSVal.arr []), s) }

/-! ## Basic facts -/

@[simp]
theorem truthy_obj (fields : List (String × JSVal)) : (JSVal.obj fields).truthy = true := rfl

@[simp]
theorem truthy_arr (items : List JSVal) : (JSVal.arr items).truthy = true := rfl

@[simp]
theorem truthy_undefined : JSVal.undefined.truthy = false := rfl

theorem truthy_str (t : String) : (JSVal.str t).truthy = true ↔ t ≠ "" := by
  simp [JSVal.truthy]

theorem get_cons_ne (k key : String) (v : JSVal) (o : Obj) (h : key ≠ k) :
    Obj.get ((k, v) :: o) key = Obj.get o key := by
  have hb : (key == k) = false := by simpa using h
  simp [Obj.get, List.lookup, hb]

theorem get_cons_self (k : String) (v : JSVal) (o : Obj) : Obj.get ((k, v) :: o) k = v := by
  simp [Obj.get, List.lookup]

/-! ## Rejected store calls -/

/-- A rejection of `find` is logged and answered with 500; nothing else is called. -/
theorem getRoot_rejected (db : Store σ) (req : Request) (s s1 : σ) (e : JSVal)
    (h : db.find req.query s = (Settled.rejected e, s1)) :
    getRoot db req s =
      { calls := [Call.find req.query], logged := [e],
        response := some ⟨500, JSVal.obj [("error", JSVal.str "The posts' information couldn't be retrieved...")]⟩,
        unhandled := none, state := s1 } := by
  simp [getRoot, h, errorPayload]

/-- A rejection of `findById` in `GET /:id` is logged and answered with 500. -/
theorem getId_rejected (db : Store σ) (req : Request) (s s1 : σ) (e : JSVal)
    (h : db.findById req.params.id s = (Settled.rejected e, s1)) :
    getId db req s =
      { calls := [Call.findById req.params.id], logged := [e],
        response := some ⟨500, JSVal.obj [("error", JSVal.str "The post information could not be retrieved.")]⟩,
        unhandled := none, state := s1 } := by
  simp [getId, h, errorPayload]

/-- A rejection of `findPostComments` is answered with 500. -/
theorem getIdComments_rejected (db : Store σ) (req : Request) (s s1 : σ) (e : JSVal)
    (h : db.findPostComments req.params.id s = (Settled.rejected e, s1)) :
    getIdComments db req s =
      { calls := [Call.findPostComments req.params.id], logged := [],
        response := some ⟨500, JSVal.obj [("error", JSVal.str "The comments information could not be retrieved.")]⟩,
        unhandled := none, state := s1 } := by
  simp [getIdComments, h, errorPayload]

/-- A rejection of `insert` is answered with 500. -/
theorem postRoot_rejected (db : Store σ) (req : Request) (s s1 : σ) (e : JSVal)
    (ht : (req.body.get "title").truthy = true) (hc : (req.body.get "contents").truthy = true)
    (h : db.insert (JSVal.obj req.body) s = (Settled.rejected e, s1)) :
    postRoot db req s =
      { calls := [Call.insert (JSVal.obj req.body)], logged := [],
        response := some ⟨500, JSVal.obj [("error", JSVal.str "There was an error while saving the post to the database")]⟩,
        unhandled := none, state := s1 } := by
  simp [postRoot, ht, hc, h, errorPayload]

/-- A rejection of `findById` in `POST /:id/comments` is answered with 500, and `insertComment`
is not called. -/
theorem postIdComments_findById_rejected (db : Store σ) (req : Request) (s s1 : σ) (e : JSVal)
    (h : db.findById req.params.id s = (Settled.rejected e, s1)) :
    postIdComments db req s =
      { calls := [Call.findById req.params.id], logged := [],
        response := some ⟨500, JSVal.obj [("error", JSVal.str "There was an error while saving the comment to the database")]⟩,
        unhandled := none, state := s1 } := by
  simp [postIdComments, h, errorPayload]

/-- A rejection of `insertComment` is handled by nobody: no response is sent. -/
theorem postIdComments_insertComment_rejected (db : Store σ) (req : Request) (s s1 s2 : σ)
    (post e : JSVal)
    (hfind : db.findById req.params.id s = (Settled.resolved post, s1)) (hpost : post.truthy = true)
    (htext : (req.body.get "text").truthy = true) (hid : req.params.id ≠ "")
    (h : db.insertComment (JSVal.obj (newComment req)) s1 = (Settled.rejected e, s2)) :
    postIdComments db req s =
      { calls := [Call.findById req.params.id, Call.insertComment (JSVal.obj (newComment req))],
        logged := [], response := none, unhandled := some e, state := s2 } := by
  have hpid : (JSVal.str req.params.id).truthy = true := (truthy_str _).2 hid
  have h1 : Obj.get (newComment req) "text" = req.body.get "text" := by
    simp [newComment, get_cons_self]
  have h2 : Obj.get (newComment req) "post_id" = JSVal.str req.params.id := by
    rw [newComment, get_cons_ne _ _ _ _ (by decide), get_cons_self]
  simp [postIdComments, hfind, hpost, h1, h2, htext, hpid, h]

/-- A rejection of `update` is answered with 500. -/
theorem putId_rejected (db : Store σ) (req : Request) (s s1 : σ) (e : JSVal)
    (ht : (req.body.get "title").truthy = true) (hc : (req.body.get "contents").truthy = true)
    (h : db.update req.params.id (JSVal.obj req.body) s = (Settled.rejected e, s1)) :
    putId db req s =
      { calls := [Call.update req.params.id (JSVal.obj req.body)], logged := [],
        response := some ⟨500, JSVal.obj [("error", JSVal.str "The post information could not be modified.")]⟩,
        unhandled := none, state := s1 } := by
  simp [putId, ht, hc, h, errorPayload]

/-- A rejection of `remove` is answered with 500. -/
theorem deleteId_rejected (db : Store σ) (req : Request) (s s1 : σ) (e : JSVal)
    (h : db.remove req.params.id s = (Settled.rejected e, s1)) :
    deleteId db req s =
      { calls := [Call.remove req.params.id], logged := [],
        response := some ⟨500, JSVal.obj [("error", JSVal.str "The post could not be removed")]⟩,
        unhandled := none, state := s1 } := by
  simp [deleteId, h, errorPayload]

/-! ## Validation of posts (C1) -/

/-- Claim C1: for every request body whose `title` or `contents` is absent or falsy, `POST /`
and `PUT /:id` (for every path id) answer 400 with exactly
`{errorMessage: "Please provide title and contents for the post."}`, make no store call at all
(neither `insert` nor `update`) and leave the store's state as it was. -/
theorem invalid_post_body_is_400 (db : Store σ) (req : Request) (s : σ)
    (h : (req.body.get "title").truthy = false ∨ (req.body.get "contents").truthy = false) :
    postRoot db req s =
        { calls := [], logged := [],
          response := some ⟨400, JSVal.obj [("errorMessage",
            JSVal.str "Please provide title and contents for the post.")]⟩,
          unhandled := none, state := s }
      ∧ putId db req s =
        { calls := [], logged := [],
          response := some ⟨400, JSVal.obj [("errorMessage",
            JSVal.str "Please provide title and contents for the post.")]⟩,
          unhandled := none, state := s } := by
  rcases h with h | h <;> simp [postRoot, putId, h, postValidationPayload]

/-- Witness of C1: a body with a title and without contents, sent to the sample store. -/
theorem invalid_post_body_is_400_witness :
    postRoot memStore (mkRequest "1" [("title", JSVal.str "Hello")]) sampleState =
        { calls := [], logged := [],
          response := some ⟨400, JSVal.obj [("errorMessage",
            JSVal.str "Please provide title and contents for the post.")]⟩,
          unhandled := none, state := sampleState }
      ∧ putId memStore (mkRequest "1" [("title", JSVal.str "Hello")]) sampleState =
        { calls := [], logged := [],
          response := some ⟨400, JSVal.obj [("errorMessage",
            JSVal.str "Please provide title and contents for the post.")]⟩,
          unhandled := none, state := sampleState } :=
  invalid_post_body_is_400 memStore (mkRequest "1" [("title", JSVal.str "Hello")]) sampleState
    (Or.inr rfl)

/-! ## Comments on a missing post (C3) -/

/-- Claim C3: for every path id and every request body (with or without `text`), when
`findById` resolves to `undefined` the handler of `POST /:id/comments` answers 404 with exactly
`{message: "The post with the specified ID does not exist."}`; its only store call is that
`findById`, so `insertComment` is never called, and the missing-text check is not reached. -/
theorem comment_on_missing_post_is_404 (db : Store σ) (req : Request) (s s1 : σ)
    (h : db.findById req.params.id s = (Settled.resolved JSVal.undefined, s1)) :
    postIdComments db req s =
      { calls := [Call.findById req.params.id], logged := [],
        response := some ⟨404, JSVal.obj [("message",
          JSVal.str "The post with the specified ID does not exist.")]⟩,
        unhandled := none, state := s1 } := by
  simp [postIdComments, h, notFoundPayload]

/-- Witness of C3: a comment without `text` for post 5, which the sample store does not hold. -/
theorem comment_on_missing_post_is_404_witness :
    memStore.findById "5" sampleState = (Settled.resolved JSVal.undefined, sampleState)
      ∧ postIdComments memStore (mkRequest "5" []) sampleState =
        { calls := [Call.findById "5"], logged := [],
          response := some ⟨404, JSVal.obj [("message",
            JSVal.str "The post with the specified ID does not exist.")]⟩,
          unhandled := none, state := sampleState } :=
  ⟨rfl, comment_on_missing_post_is_404 memStore (mkRequest "5" []) sampleState sampleState rfl⟩

/-! ## Creating a comment (C4) -/

/-- Claim C4: when `findById` resolves to an existing post, then (a) for a body with a truthy
`text` (the path id being a non-empty string, as every match of `/:id/comments` is) the store
calls are `findById` and then exactly one `insertComment`, whose argument is exactly
`{text: <the body's text>, post_id: <the path id>}`, and when that call resolves the response
is 201 with the comment the store returned; (b) for a body whose `text` is missing or falsy
the response is 400 with `{errorMessage: "Please provide text for the comment."}` and
`insertComment` is not called. -/
theorem comment_on_existing_post (db : Store σ) (req : Request) (s s1 : σ)
    (fields : List (String × JSVal))
    (hfind : db.findById req.params.id s = (Settled.resolved (JSVal.obj fields), s1)) :
    ((req.body.get "text").truthy = true → req.params.id ≠ "" →
        (postIdComments db req s).calls =
            [Call.findById req.params.id,
             Call.insertComment (JSVal.obj
               [("text", req.body.get "text"), ("post_id", JSVal.str req.params.id)])]
          ∧ ∀ (created : JSVal) (s2 : σ),
              db.insertComment (JSVal.obj
                [("text", req.body.get "text"), ("post_id", JSVal.str req.params.id)]) s1
                = (Settled.resolved created, s2) →
              postIdComments db req s =
                { calls := [Call.findById req.params.id,
                    Call.insertComment (JSVal.obj
                      [("text", req.body.get "text"), ("post_id", JSVal.str req.params.id)])],
                  logged := [], response := some ⟨201, created⟩, unhandled := none, state := s2 })
      ∧ ((req.body.get "text").truthy = false →
          postIdComments db req s =
            { calls := [Call.findById req.params.id], logged := [],
              response := some ⟨400, JSVal.obj [("errorMessage",
                JSVal.str "Please provide text for the comment.")]⟩,
              unhandled := none, state := s1 }) := by
  have h1 : Obj.get [("text", req.body.get "text"), ("post_id", JSVal.str req.params.id)] "text"
      = req.body.get "text" := get_cons_self _ _ _
  have h2 : Obj.get [("text", req.body.get "text"), ("post_id", JSVal.str req.params.id)] "post_id"
      = JSVal.str req.params.id := by
    rw [get_cons_ne _ _ _ _ (by decide), get_cons_self]
  refine ⟨fun htext hid => ?_, fun htext => ?_⟩
  · have hpid : (JSVal.str req.params.id).truthy = true := (truthy_str _).2 hid
    refine ⟨?_, fun created s2 hins => ?_⟩
    · simp only [postIdComments, newComment, hfind, truthy_obj, h1, h2, htext, hpid]
      cases hins : db.insertComment (JSVal.obj
          [("text", req.body.get "text"), ("post_id", JSVal.str req.params.id)]) s1 with
      | mk r s2 => cases r <;> simp
    · simp [postIdComments, newComment, hfind, h1, h2, htext, hpid, hins]
  · simp [postIdComments, newComment, hfind, h1, htext, commentValidationPayload]


/-- Witness of C4: a comment with text and a comment without text for post 1 of the sample
store. -/
theorem comment_on_existing_post_witness :
    postIdComments memStore (mkRequest "1" [("text", JSVal.str "Nice"), ("author", JSVal.str "me")])
        sampleState =
        { calls := [Call.findById "1",
            Call.insertComment (JSVal.obj [("text", JSVal.str "Nice"), ("post_id", JSVal.str "1")])],
          logged := [],
          response := some ⟨201, JSVal.obj
            [("id", JSVal.num 2), ("text", JSVal.str "Nice"), ("post_id", JSVal.str "1")]⟩,
          unhandled := none,
          state := { posts := [samplePost],
                     comments := [JSVal.obj
                       [("id", JSVal.num 2), ("text", JSVal.str "Nice"), ("post_id", JSVal.str "1")]],
                     nextId := 3 } }
      ∧ postIdComments memStore (mkRequest "1" [("author", JSVal.str "me")]) sampleState =
        { calls := [Call.findById "1"], logged := [],
          response := some ⟨400, JSVal.obj [("errorMessage",
            JSVal.str "Please provide text for the comment.")]⟩,
          unhandled := none, state := sampleState } :=
  ⟨((comment_on_existing_post memStore
        (mkRequest "1" [("text", JSVal.str "Nice"), ("author", JSVal.str "me")])
        sampleState sampleState _ rfl).1 rfl (by decide)).2 _ _ rfl,
   (comment_on_existing_post memStore (mkRequest "1" [("author", JSVal.str "me")])
        sampleState sampleState _ rfl).2 rfl⟩

/-! ## A rejected `insertComment` (C2) -/

/-- Claim C2, at its failing input: post 1 exists, the body has a text and `insertComment`
rejects.  The handler of `POST /:id/comments` sends no response at all (in particular no 500
with `{error: "There was an error while saving the comment to the database"}`): the rejection
stays unhandled. -/
theorem rejected_insertComment_gets_no_response :
    postIdComments commentFailingStore (mkRequest "1" [("text", JSVal.str "Nice")]) sampleState =
      { calls := [Call.findById "1",
          Call.insertComment (JSVal.obj [("text", JSVal.str "Nice"), ("post_id", JSVal.str "1")])],
        logged := [], response := none,
        unhandled := some (JSVal.str "insertComment failed"), state := sampleState } := by
  rfl

/-! ## Reading a post (C6, C7) -/

/-- Claim C6: for every id, `GET /:id` answers 404 with exactly
`{message: "The post with the specified ID does not exist."}` when `findById` resolves to
`undefined`, and 200 with the post itself, unchanged, when `findById` resolves to a post. -/
theorem get_post_by_id (db : Store σ) (req : Request) (s s1 : σ) :
    (db.findById req.params.id s = (Settled.resolved JSVal.undefined, s1) →
        getId db req s =
          { calls := [Call.findById req.params.id], logged := [],
            response := some ⟨404, JSVal.obj [("message",
              JSVal.str "The post with the specified ID does not exist.")]⟩,
            unhandled := none, state := s1 })
      ∧ (∀ fields : List (String × JSVal),
          db.findById req.params.id s = (Settled.resolved (JSVal.obj fields), s1) →
          getId db req s =
            { calls := [Call.findById req.params.id], logged := [],
              response := some ⟨200, JSVal.obj fields⟩, unhandled := none, state := s1 }) := by
  refine ⟨fun h => ?_, fun fields h => ?_⟩
  · simp [getId, h, notFoundPayload]
  · simp [getId, h]

/-- Witness of C6: post 5 is missing from the sample store and post 1 is in it. -/
theorem get_post_by_id_witness :
    getId memStore (mkRequest "5" []) sampleState =
        { calls := [Call.findById "5"], logged := [],
          response := some ⟨404, JSVal.obj [("message",
            JSVal.str "The post with the specified ID does not exist.")]⟩,
          unhandled := none, state := sampleState }
      ∧ getId memStore (mkRequest "1" []) sampleState =
        { calls := [Call.findById "1"], logged := [],
          response := some ⟨200, JSVal.obj
            [("id", JSVal.num 1), ("title", JSVal.str "Hello"), ("contents", JSVal.str "First post")]⟩,
          unhandled := none, state := sampleState } :=
  ⟨(get_post_by_id memStore (mkRequest "5" []) sampleState sampleState).1 rfl,
   (get_post_by_id memStore (mkRequest "1" []) sampleState sampleState).2 _ rfl⟩

/-- Claim C7, at its failing input: with the store behaving as the comment on the handler
documents (`findById` gives an empty array when no post has the id), `GET /7` on a store
without posts answers 200 with the body `[]`, not 404 with the not-found message. -/
theorem get_missing_post_from_documented_store_is_200 :
    getId documentedStore (mkRequest "7" []) emptyState =
      { calls := [Call.findById "7"], logged := [],
        response := some ⟨200, JSVal.arr []⟩, unhandled := none, state := emptyState } := by
  rfl

/-! ## The comments of a post (C8) -/

/-- Claim C8: for every post id, `GET /:id/comments` answers 404 with
`{message: "The post with the specified ID does not exist."}` when `findPostComments` resolves
to `undefined`, and 200 with the array as the body when it resolves to any array, the empty
array included. -/
theorem get_comments_of_post (db : Store σ) (req : Request) (s s1 : σ) :
    (db.findPostComments req.params.id s = (Settled.resolved JSVal.undefined, s1) →
        getIdComments db req s =
          { calls := [Call.findPostComments req.params.id], logged := [],
            response := some ⟨404, JSVal.obj [("message",
              JSVal.str "The post with the specified ID does not exist.")]⟩,
            unhandled := none, state := s1 })
      ∧ (∀ comments : List JSVal,
          db.findPostComments req.params.id s = (Settled.resolved (JSVal.arr comments), s1) →
          getIdComments db req s =
            { calls := [Call.findPostComments req.params.id], logged := [],
              response := some ⟨200, JSVal.arr comments⟩, unhandled := none, state := s1 }) := by
  refine ⟨fun h => ?_, fun comments h => ?_⟩
  · simp [getIdComments, h, notFoundPayload]
  · simp [getIdComments, h]

/-- Witness of C8: post 5 is missing from the sample store, post 1 is in it and has no
comment. -/
theorem get_comments_of_post_witness :
    getIdComments memStore (mkRequest "5" []) sampleState =
        { calls := [Call.findPostComments "5"], logged := [],
          response := some ⟨404, JSVal.obj [("message",
            JSVal.str "The post with the specified ID does not exist.")]⟩,
          unhandled := none, state := sampleState }
      ∧ getIdComments memStore (mkRequest "1" []) sampleState =
        { calls := [Call.findPostComments "1"], logged := [],
          response := some ⟨200, JSVal.arr []⟩, unhandled := none, state := sampleState } :=
  ⟨(get_comments_of_post memStore (mkRequest "5" []) sampleState sampleState).1 rfl,
   (get_comments_of_post memStore (mkRequest "1" []) sampleState sampleState).2 [] rfl⟩

/-! ## Updating a post (C10) -/

/-- Claim C10: for every path id and every body with truthy `title` and `contents`, the store
calls of `PUT /:id` are exactly one `update` with the path id and the request body; the
response is 404 with `{message: "The post with the specified ID does not exist."}` when
`update` resolves to `undefined`, and 200 with the updated post as the body when it resolves to
a post. -/
theorem update_post (db : Store σ) (req : Request) (s : σ)
    (ht : (req.body.get "title").truthy = true) (hc : (req.body.get "contents").truthy = true) :
    (putId db req s).calls = [Call.update req.params.id (JSVal.obj req.body)]
      ∧ (∀ s1 : σ, db.update req.params.id (JSVal.obj req.body) s
            = (Settled.resolved JSVal.undefined, s1) →
          putId db req s =
            { calls := [Call.update req.params.id (JSVal.obj req.body)], logged := [],
              response := some ⟨404, JSVal.obj [("message",
                JSVal.str "The post with the specified ID does not exist.")]⟩,
              unhandled := none, state := s1 })
      ∧ (∀ (fields : List (String × JSVal)) (s1 : σ),
          db.update req.params.id (JSVal.obj req.body) s
            = (Settled.resolved (JSVal.obj fields), s1) →
          putId db req s =
            { calls := [Call.update req.params.id (JSVal.obj req.body)], logged := [],
              response := some ⟨200, JSVal.obj fields⟩, unhandled := none, state := s1 }) := by
  refine ⟨?_, fun s1 h => ?_, fun fields s1 h => ?_⟩
  · simp only [putId, ht, hc]
    cases h : db.update req.params.id (JSVal.obj req.body) s with
    | mk r s1 => cases r <;> simp
  · simp [putId, ht, hc, h, notFoundPayload]
  · simp [putId, ht, hc, h]


/-- Witness of C10: a valid update of the missing post 5 and of post 1 of the sample store. -/
theorem update_post_witness :
    putId memStore (mkRequest "5" [("title", JSVal.str "New"), ("contents", JSVal.str "Text")])
        sampleState =
        { calls := [Call.update "5"
            (JSVal.obj [("title", JSVal.str "New"), ("contents", JSVal.str "Text")])],
          logged := [],
          response := some ⟨404, JSVal.obj [("message",
            JSVal.str "The post with the specified ID does not exist.")]⟩,
          unhandled := none, state := sampleState }
      ∧ (putId memStore (mkRequest "1" [("title", JSVal.str "New"), ("contents", JSVal.str "Text")])
        sampleState).response =
        some ⟨200, JSVal.obj
          [("id", JSVal.num 1), ("title", JSVal.str "New"), ("contents", JSVal.str "Text"),
           ("id", JSVal.num 1), ("title", JSVal.str "Hello"), ("contents", JSVal.str "First post")]⟩ :=
  ⟨(update_post memStore
      (mkRequest "5" [("title", JSVal.str "New"), ("contents", JSVal.str "Text")])
      sampleState rfl rfl).2.1 _ rfl,
   congrArg Run.response ((update_post memStore
      (mkRequest "1" [("title", JSVal.str "New"), ("contents", JSVal.str "Text")])
      sampleState rfl rfl).2.2 _ _ rfl)⟩

/-! ## Creating a post (C5) -/

/-- Claim C5: for every request body with truthy `title` and `contents`, (a) with any store,
the store calls of `POST /` are exactly one `insert` with that body, and when it resolves the
response is 201 with what the store resolved to; (b) with the store of the specification, that
response body is the created post: it has the `title` and the `contents` of the request body
and the id the store assigned, and it is the post the store now holds. -/
theorem create_post (req : Request)
    (ht : (req.body.get "title").truthy = true) (hc : (req.body.get "contents").truthy = true) :
    (∀ (τ : Type) (db : Store τ) (s : τ),
        (postRoot db req s).calls = [Call.insert (JSVal.obj req.body)]
          ∧ ∀ (created : JSVal) (s1 : τ),
              db.insert (JSVal.obj req.body) s = (Settled.resolved created, s1) →
              postRoot db req s =
                { calls := [Call.insert (JSVal.obj req.body)], logged := [],
                  response := some ⟨201, created⟩, unhandled := none, state := s1 })
      ∧ (∀ s : MemState, ∃ created : Obj,
          (postRoot memStore req s).response = some ⟨201, JSVal.obj created⟩
            ∧ created.get "title" = req.body.get "title"
            ∧ created.get "contents" = req.body.get "contents"
            ∧ created.get "id" = JSVal.num (Int.ofNat s.nextId)
            ∧ (postRoot memStore req s).state.posts = s.posts ++ [JSVal.obj created]) := by
  refine ⟨fun τ db s => ⟨?_, fun created s1 h => ?_⟩, fun s => ?_⟩
  · simp only [postRoot, ht, hc]
    cases h : db.insert (JSVal.obj req.body) s with
    | mk r s1 => cases r <;> simp
  · simp [postRoot, ht, hc, h]
  · refine ⟨("id", JSVal.num (Int.ofNat s.nextId)) :: req.body, ?_, ?_, ?_, ?_, ?_⟩
    · simp [postRoot, ht, hc, memStore, fieldsOf]
    · exact get_cons_ne _ _ _ _ (by decide)
    · exact get_cons_ne _ _ _ _ (by decide)
    · exact get_cons_self _ _ _
    · simp [postRoot, ht, hc, memStore, fieldsOf]

/-- Witness of C5: a valid post sent to the sample store, which assigns it the id 2. -/
theorem create_post_witness :
    postRoot memStore (mkRequest "" [("title", JSVal.str "Second"), ("contents", JSVal.str "More")])
        sampleState =
      { calls := [Call.insert
          (JSVal.obj [("title", JSVal.str "Second"), ("contents", JSVal.str "More")])],
        logged := [],
        response := some ⟨201, JSVal.obj
          [("id", JSVal.num 2), ("title", JSVal.str "Second"), ("contents", JSVal.str "More")]⟩,
        unhandled := none,
        state := { posts := [samplePost, JSVal.obj
                     [("id", JSVal.num 2), ("title", JSVal.str "Second"), ("contents", JSVal.str "More")]],
                   comments := [], nextId := 3 } } :=
  ((create_post (mkRequest "" [("title", JSVal.str "Second"), ("contents", JSVal.str "More")])
      rfl rfl).1 MemState memStore sampleState).2 _ _ rfl

/-! ## Deleting a post (C9) -/

/-- After the posts with the path id are filtered out, none with that id is found. -/
theorem find_after_remove (id : String) (posts : List JSVal) :
    (posts.filter (fun p => !hasId id p)).find? (hasId id) = none := by
  rw [List.find?_eq_none]
  intro p hp
  have := (List.mem_filter.1 hp).2
  simpa using this

/-- Claim C9: (a) with any store, `DELETE /:id` answers 200 with exactly
`{message: "Deleted post with id <id>"}`, `<id>` being the path id, when `remove` resolves to
the removed post, and 404 with `{message: "The post with the specified ID does not exist."}`
when `remove` resolves to `undefined`; (b) with the store of the specification, for every id of
an existing post the `DELETE /:id` answers that 200 and a following `GET /:id` with the same id
answers 404 with the not-found message. -/
theorem delete_post (req : Request) :
    (∀ (τ : Type) (db : Store τ) (s s1 : τ),
        (∀ fields : List (String × JSVal),
            db.remove req.params.id s = (Settled.resolved (JSVal.obj fields), s1) →
            deleteId db req s =
              { calls := [Call.remove req.params.id], logged := [],
                response := some ⟨200, JSVal.obj [("message",
                  JSVal.str ("Deleted post with id " ++ req.params.id))]⟩,
                unhandled := none, state := s1 })
          ∧ (db.remove req.params.id s = (Settled.resolved JSVal.undefined, s1) →
            deleteId db req s =
              { calls := [Call.remove req.params.id], logged := [],
                response := some ⟨404, JSVal.obj [("message",
                  JSVal.str "The post with the specified ID does not exist.")]⟩,
                unhandled := none, state := s1 }))
      ∧ (∀ (s : MemState) (post : JSVal) (next : Request),
          s.posts.find? (hasId req.params.id) = some post →
          next.params.id = req.params.id →
          (deleteId memStore req s).response =
              some ⟨200, JSVal.obj [("message",
                JSVal.str ("Deleted post with id " ++ req.params.id))]⟩
            ∧ (getId memStore next (deleteId memStore req s).state).response =
              some ⟨404, JSVal.obj [("message",
                JSVal.str "The post with the specified ID does not exist.")]⟩) := by
  refine ⟨fun τ db s s1 => ⟨fun fields h => ?_, fun h => ?_⟩, fun s post next hfound hnext => ?_⟩
  · simp [deleteId, h]
  · simp [deleteId, h, notFoundPayload]
  · have hobj : post.truthy = true := by
      have hid : hasId req.params.id post = true := List.find?_some hfound
      cases post <;> simp_all [hasId]
    refine ⟨?_, ?_⟩
    · simp [deleteId, memStore, hfound, hobj]
    · have hstate : (deleteId memStore req s).state =
          { s with posts := s.posts.filter (fun p => !hasId req.params.id p) } := by
        simp [deleteId, memStore, hfound]
      rw [hstate]
      simp only [getId, memStore, hnext, find_after_remove]
      simp [notFoundPayload]

/-- Witness of C9: post 1 of the sample store is deleted and then read; post 5 is missing. -/
theorem delete_post_witness :
    ((deleteId memStore (mkRequest "1" []) sampleState).response =
          some ⟨200, JSVal.obj [("message", JSVal.str "Deleted post with id 1")]⟩
        ∧ (getId memStore (mkRequest "1" []) (deleteId memStore (mkRequest "1" []) sampleState).state).response =
          some ⟨404, JSVal.obj [("message",
            JSVal.str "The post with the specified ID does not exist.")]⟩)
      ∧ deleteId memStore (mkRequest "5" []) sampleState =
        { calls := [Call.remove "5"], logged := [],
          response := some ⟨404, JSVal.obj [("message",
            JSVal.str "The post with the specified ID does not exist.")]⟩,
          unhandled := none, state := sampleState } :=
  ⟨(delete_post (mkRequest "1" [])).2 sampleState samplePost (mkRequest "1" []) rfl rfl,
   ((delete_post (mkRequest "5" [])).1 MemState memStore sampleState sampleState).2 rfl⟩

end PostsRouter
